import Mathlib

/-!
Verification of `threads_client.py` (a Threads publishing API client).

The source is shallowly embedded: container statuses are the raw strings the
Python code compares against; HTTP responses are modelled as association lists
(the JSON objects the code reads); the remote side of each call is a parameter
(a trace of poll results, probe results, a refresh response).  Side-effect
order (polls, the publish call) is recorded in an explicit event list.
-/

namespace ThreadsClient

/-- Python substring test on `List Char`: `matchesAt s p` is true when `p` is
an initial segment of `s`. -/
def matchesAt : List Char → List Char → Bool
  | _, [] => true
  | [], _ :: _ => false
  | c :: s, p :: ps => c = p && matchesAt s ps

/-- `containsSub s pat`: `pat` occurs as a contiguous run inside `s`. -/
def containsSub : List Char → List Char → Bool
  | [], pat => pat.isEmpty
  | c :: s, pat => matchesAt (c :: s) pat || containsSub s pat

/-- Embedding of Python's `pat in s` substring operator. -/
def strContains (s pat : String) : Bool :=
  containsSub s.data pat.data

/-- Embedding of Python's `s.lower()` (characterwise lowering). -/
def strToLower (s : String) : String :=
  ⟨s.data.map Char.toLower⟩

/-- Embedding of Python dict read `d.get(k)` on a JSON object modelled as an
association list (insertion-ordered, first match wins as keys are unique). -/
def dictGet (d : List (String × String)) (k : String) : Option String :=
  match d with
  | [] => none
  | (k', v) :: rest => if k' = k then some v else dictGet rest k

/-- Embedding of Python dict write `d[k] = v`: update in place when the key is
present, append otherwise (Python dicts keep insertion order). -/
def dictSet (d : List (String × String)) (k v : String) : List (String × String) :=
  if d.any (fun p => p.1 = k) then
    d.map (fun p => if p.1 = k then (k, v) else p)
  else
    d ++ [(k, v)]

/-- `get_container_status`: reads the `status` field of the response JSON,
`resp.get('status', 'UNKNOWN')`. -/
def get_container_status (resp : List (String × String)) : String :=
  (dictGet resp "status").getD "UNKNOWN"

/-- Observable events of a `post_thread` run: each status poll
(`get_container_status` call, carrying the observed status) and the
`publish_thread` call. -/
inductive Event where
  | poll (status : String)
  | publishCall
  deriving DecidableEq, Repr

/-- True exactly on poll events. -/
def Event.isPoll : Event → Bool
  | .poll _ => true
  | .publishCall => false

/-- The `while status in ['IN_PROGRESS'] and wait_secs < max_wait` loop of
`post_thread`, with `max_wait = 60` and `interval = 5` inlined as in the
source.  `trace i` is the status returned by the `i`-th poll of the remote
container (`trace 0` is the pre-loop poll; the loop itself polls
`trace idx, trace (idx+1), ...`).  `fuel` bounds the number of iterations;
the caller passes `13 = max_wait / interval + 1`, which exceeds the `12`
iterations the guard `wait_secs < 60` can ever allow, so the fuel is never
exhausted.  Returns the final status, the final `wait_secs`, and the event
list extended with one `poll` event per iteration. -/
def pollLoopAux (trace : Nat → String) :
    Nat → String → Nat → Nat → List Event → String × Nat × List Event
  | 0, status, _, wait_secs, acc => (status, wait_secs, acc)
  | fuel + 1, status, idx, wait_secs, acc =>
    if status = "IN_PROGRESS" ∧ wait_secs < 60 then
      pollLoopAux trace fuel (trace idx) (idx + 1) (wait_secs + 5)
        (acc ++ [Event.poll (trace idx)])
    else
      (status, wait_secs, acc)

/-- Result of a `post_thread` run: the ordered event list, the status observed
by the last poll, the final `wait_secs`, and the returned value or raised
error. -/
structure PostRun (α : Type) where
  events : List Event
  lastStatus : String
  waitSecs : Nat
  result : Except String α
  deriving Repr

/-- `post_thread` after the container is created: poll `trace 0`, run the
poll loop, raise `Threads container not publishable` on `ERROR`/`EXPIRED`,
otherwise call `publish_thread`, whose outcome is the parameter `pub`. -/
def post_thread {α : Type} (trace : Nat → String) (pub : Except String α) :
    PostRun α :=
  let r := pollLoopAux trace 13 (trace 0) 1 0 [Event.poll (trace 0)]
  if r.1 = "ERROR" ∨ r.1 = "EXPIRED" then
    { events := r.2.2, lastStatus := r.1, waitSecs := r.2.1
      result := .error ("Threads container not publishable: status=" ++ r.1) }
  else
    { events := r.2.2 ++ [Event.publishCall], lastStatus := r.1
      waitSecs := r.2.1, result := pub }

/-- The expiry signature test of `__init__`:
`'401' in error_str and ('expired' in error_str.lower() or 'OAuthException' in error_str)`. -/
def isExpiredAuthError (error_str : String) : Bool :=
  strContains error_str "401" &&
    (strContains (strToLower error_str) "expired" || strContains error_str "OAuthException")

/-- Outcome of the constructor's token-validation path: the user id on
success, the manual-refresh error raised when auto-refresh is disabled, or a
propagated exception message. -/
inductive InitOutcome where
  | ok (userId : String)
  | raisedExpired (msg : String)
  | raised (msg : String)
  deriving DecidableEq, Repr

/-- An `__init__` run together with how many times `refresh_access_token` and
the identity probe (`retrieve_profiles`) were called. -/
structure InitRun where
  outcome : InitOutcome
  refreshCalls : Nat
  probeCalls : Nat
  deriving DecidableEq, Repr

/-- The token-validation path of `ThreadsClient.__init__`.  `probe1` is the
first `retrieve_profiles()['id']` attempt (user id, or the raised exception's
message), `refresh` the outcome of `refresh_access_token`, `probe2` the
re-run probe after a refresh. -/
def client_init (auto_refresh : Bool) (probe1 : Except String String)
    (refresh : Except String Unit) (probe2 : Except String String) : InitRun :=
  match probe1 with
  | .ok uid => ⟨.ok uid, 0, 1⟩
  | .error e =>
    if isExpiredAuthError e then
      if auto_refresh then
        match refresh with
        | .error re => ⟨.raised re, 1, 1⟩
        | .ok _ =>
          match probe2 with
          | .ok uid => ⟨.ok uid, 1, 2⟩
          | .error e2 => ⟨.raised e2, 1, 2⟩
      else
        ⟨.raisedExpired ("Access token expired. Please refresh manually: " ++ e), 0, 1⟩
    else
      ⟨.raised e, 0, 1⟩

/-- The request payload built by `create_thread`:
`data = {'text': text, 'media_type': 'TEXT'}`, then if an image URL is given,
`data['image_url'] = image_url; data['media_type'] = 'IMAGE'`. -/
def create_thread_payload (text : String) (image_url : Option String) :
    List (String × String) :=
  let data := [("text", text), ("media_type", "TEXT")]
  match image_url with
  | none => data
  | some u => dictSet (dictSet data "image_url" u) "media_type" "IMAGE"

/-- The remote side of the refresh exchange as `refresh_access_token`
distinguishes it: a transport failure, a non-2xx response, or a 2xx JSON
body. -/
inductive RefreshResponse where
  | transportError (msg : String)
  | httpError (code : Nat) (body : String)
  | ok (body : List (String × String))
  deriving DecidableEq, Repr

/-- `refresh_access_token`: on a 2xx response whose body carries
`access_token`, `self.auth_token` is replaced with it and the body returned;
every failure (transport, non-2xx, missing field) raises and leaves
`self.auth_token` untouched.  Returns the credential held after the call and
the returned body or raised error. -/
def refresh_access_token (auth_token : String) (resp : RefreshResponse) :
    String × Except String (List (String × String)) :=
  match resp with
  | .transportError m =>
    (auth_token, .error ("Failed to refresh token: " ++ m))
  | .httpError code body =>
    (auth_token,
      .error ("Failed to refresh token - HTTPError " ++ toString code ++ ": " ++ body))
  | .ok body =>
    match dictGet body "access_token" with
    | none => (auth_token, .error "Failed to refresh token: KeyError: access_token")
    | some t => (t, .ok body)

/-- The status strings named by the spec's `Status` enum. -/
def knownStatuses : List String :=
  ["IN_PROGRESS", "FINISHED", "PUBLISHED", "ERROR", "EXPIRED", "UNKNOWN"]

/-! ### Helper lemmas about the poll loop -/

theorem range_map_succ {β : Type} (f : Nat → β) (n : Nat) :
    (List.range (n + 1)).map f = f 0 :: (List.range n).map (fun j => f (j + 1)) := by
  rw [List.range_succ_eq_map, List.map_cons, List.map_map]
  rfl

/-- The loop returns immediately when its guard fails, whatever the fuel. -/
theorem pollLoopAux_exit (trace : Nat → String) (fuel : Nat) (status : String)
    (idx wait_secs : Nat) (acc : List Event)
    (h : ¬(status = "IN_PROGRESS" ∧ wait_secs < 60)) :
    pollLoopAux trace fuel status idx wait_secs acc = (status, wait_secs, acc) := by
  cases fuel with
  | zero => rfl
  | succ fuel => simp [pollLoopAux, h]

/-- One guarded iteration of the loop. -/
theorem pollLoopAux_step (trace : Nat → String) (fuel idx wait_secs : Nat)
    (acc : List Event) (h2 : wait_secs < 60) :
    pollLoopAux trace (fuel + 1) "IN_PROGRESS" idx wait_secs acc =
      pollLoopAux trace fuel (trace idx) (idx + 1) (wait_secs + 5)
        (acc ++ [Event.poll (trace idx)]) := by
  simp [pollLoopAux, h2]

/-- If the next `m` polls are `IN_PROGRESS` and the one after is `FINISHED`,
all reached before the wait ceiling, the loop polls exactly those `m + 1`
statuses and stops on `FINISHED`. -/
theorem pollLoopAux_finished (trace : Nat → String) :
    ∀ (m fuel idx wait_secs : Nat) (acc : List Event),
      m < fuel → wait_secs + 5 * m < 60 →
      (∀ j, j < m → trace (idx + j) = "IN_PROGRESS") →
      trace (idx + m) = "FINISHED" →
      pollLoopAux trace fuel "IN_PROGRESS" idx wait_secs acc =
        ("FINISHED", wait_secs + 5 * (m + 1),
          acc ++ (List.range (m + 1)).map (fun j => Event.poll (trace (idx + j)))) := by
  intro m
  induction m with
  | zero =>
    intro fuel idx wait_secs acc hfuel hwait _ hfin
    match fuel, hfuel with
    | fuel + 1, _ =>
      have hlt : wait_secs < 60 := by omega
      have h0 : trace idx = "FINISHED" := by simpa using hfin
      rw [pollLoopAux_step trace fuel idx wait_secs acc hlt, h0,
        pollLoopAux_exit trace fuel "FINISHED" (idx + 1) (wait_secs + 5) _ (by simp)]
      simp [h0, List.range_succ]
  | succ m ih =>
    intro fuel idx wait_secs acc hfuel hwait hprog hfin
    match fuel, hfuel with
    | fuel + 1, _ =>
      have hlt : wait_secs < 60 := by omega
      have h0 : trace idx = "IN_PROGRESS" := by simpa using hprog 0 (Nat.succ_pos m)
      rw [pollLoopAux_step trace fuel idx wait_secs acc hlt, h0]
      rw [ih fuel (idx + 1) (wait_secs + 5) (acc ++ [Event.poll "IN_PROGRESS"])
        (by omega) (by omega)
        (fun j hj => by
          have := hprog (j + 1) (by omega)
          simpa [show idx + (j + 1) = idx + 1 + j from by omega] using this)
        (by simpa [show idx + (m + 1) = idx + 1 + m from by omega] using hfin)]
      have hmap : List.map (fun j => Event.poll (trace (idx + 1 + j))) (List.range (m + 1)) =
          List.map (fun j => Event.poll (trace (idx + (j + 1)))) (List.range (m + 1)) := by
        apply List.map_congr_left
        intro j _
        rw [show idx + 1 + j = idx + (j + 1) from by omega]
      simp only [Prod.mk.injEq]
      refine ⟨by trivial, by omega, ?_⟩
      rw [range_map_succ (fun j => Event.poll (trace (idx + j))) (m + 1)]
      simp only [Nat.add_zero, h0]
      rw [List.append_assoc, List.singleton_append, hmap]

/-- On a trace that stays `IN_PROGRESS`, the loop with fuel `n + 1` starting
at `wait_secs = 60 - 5 * n` (`n ≤ 12`) runs exactly `n` more polls and stops
with `wait_secs = 60`, still `IN_PROGRESS`. -/
theorem pollLoopAux_const (trace : Nat → String)
    (h : ∀ i, trace i = "IN_PROGRESS") :
    ∀ (n idx : Nat) (acc : List Event), n ≤ 12 →
      pollLoopAux trace (n + 1) "IN_PROGRESS" idx (60 - 5 * n) acc =
        ("IN_PROGRESS", 60, acc ++ List.replicate n (Event.poll "IN_PROGRESS")) := by
  intro n
  induction n with
  | zero =>
    intro idx acc _
    simp [pollLoopAux]
  | succ n ih =>
    intro idx acc hn
    have hlt : 60 - 5 * (n + 1) < 60 := by omega
    rw [pollLoopAux_step trace (n + 1) idx (60 - 5 * (n + 1)) acc hlt, h idx,
      show 60 - 5 * (n + 1) + 5 = 60 - 5 * n from by omega]
    rw [ih (idx + 1) (acc ++ [Event.poll "IN_PROGRESS"]) (by omega)]
    simp [List.replicate_succ]

/-- Every event the loop appends is a poll event. -/
theorem pollLoopAux_events (trace : Nat → String) :
    ∀ (fuel : Nat) (status : String) (idx wait_secs : Nat) (acc : List Event)
      (e : Event), e ∈ (pollLoopAux trace fuel status idx wait_secs acc).2.2 →
      e ∈ acc ∨ e.isPoll = true := by
  intro fuel
  induction fuel with
  | zero =>
    intro status idx wait_secs acc e he
    exact Or.inl he
  | succ fuel ih =>
    intro status idx wait_secs acc e he
    by_cases hc : status = "IN_PROGRESS" ∧ wait_secs < 60
    · simp only [pollLoopAux, if_pos hc] at he
      rcases ih _ _ _ _ _ he with hmem | hpoll
      · rcases List.mem_append.mp hmem with h' | h'
        · exact Or.inl h'
        · right
          rcases List.mem_singleton.mp h' with rfl
          rfl
      · exact Or.inr hpoll
    · simp only [pollLoopAux, if_neg hc] at he
      exact Or.inl he

/-! ### Claim theorems -/

/-- C1: for every container whose polled status sequence is `k` `IN_PROGRESS`
observations (`k ≤ 12`, i.e. `FINISHED` is reached before the 60-unit wait
ceiling ends polling) followed by `FINISHED`, `post_thread` performs exactly
those `k + 1` polls, then invokes `publish_thread` exactly once — after the
last poll — and returns the publish result. -/
theorem post_thread_finished_publishes_once {α : Type} (trace : Nat → String)
    (pub : Except String α) (k : Nat) (hk : k ≤ 12)
    (hprog : ∀ i, i < k → trace i = "IN_PROGRESS")
    (hfin : trace k = "FINISHED") :
    (post_thread trace pub).events =
      (List.range (k + 1)).map (fun i => Event.poll (trace i)) ++ [Event.publishCall] ∧
    (post_thread trace pub).result = pub ∧
    (post_thread trace pub).events.count Event.publishCall = 1 := by
  have hmain : (post_thread trace pub).events =
      (List.range (k + 1)).map (fun i => Event.poll (trace i)) ++ [Event.publishCall] ∧
      (post_thread trace pub).result = pub := by
    cases k with
    | zero =>
      have hloop := pollLoopAux_exit trace 13 (trace 0) 1 0 [Event.poll (trace 0)]
        (fun hc => by rw [hfin] at hc; exact absurd hc.1 (by decide))
      simp only [post_thread, hloop]
      rw [hfin]
      simp [List.range_succ, hfin]
    | succ m =>
      have h0 : trace 0 = "IN_PROGRESS" := hprog 0 (Nat.succ_pos m)
      have hloop := pollLoopAux_finished trace m 13 1 0 [Event.poll "IN_PROGRESS"]
        (by omega) (by omega)
        (fun j hj => by
          have := hprog (j + 1) (by omega)
          simpa [Nat.add_comm 1 j] using this)
        (by simpa [Nat.add_comm 1 m] using hfin)
      have hmap : List.map (fun j => Event.poll (trace (1 + j))) (List.range (m + 1)) =
          List.map (fun j => Event.poll (trace (j + 1))) (List.range (m + 1)) := by
        apply List.map_congr_left
        intro j _
        rw [Nat.add_comm 1 j]
      simp only [post_thread, h0, hloop]
      simp only [List.cons_append, List.nil_append]
      rw [range_map_succ (fun i => Event.poll (trace i)) (m + 1)]
      simp [h0, hmap]
  refine ⟨hmain.1, hmain.2, ?_⟩
  rw [hmain.1]
  simp [List.count_append, List.count_eq_zero, List.mem_map]

/-- Witness for C1 at the trace `IN_PROGRESS, IN_PROGRESS, FINISHED, ...`. -/
theorem post_thread_finished_publishes_once_witness :
    (post_thread (fun i => if i < 2 then "IN_PROGRESS" else "FINISHED")
        (Except.ok "42")).events =
      (List.range 3).map
        (fun i => Event.poll (if i < 2 then "IN_PROGRESS" else "FINISHED")) ++
        [Event.publishCall] ∧
    (post_thread (fun i => if i < 2 then "IN_PROGRESS" else "FINISHED")
        (Except.ok "42")).result = Except.ok "42" ∧
    (post_thread (fun i => if i < 2 then "IN_PROGRESS" else "FINISHED")
        (Except.ok "42")).events.count Event.publishCall = 1 :=
  post_thread_finished_publishes_once
    (fun i => if i < 2 then "IN_PROGRESS" else "FINISHED") (Except.ok "42") 2
    (by decide) (fun i hi => if_pos hi) (by decide)

/-- C2 counterexample: on a container that stays `IN_PROGRESS` through the
whole wait ceiling, `post_thread` does call publish while the last observed
status is `IN_PROGRESS` — refuting the claim that publish is never called on
a container last observed `IN_PROGRESS` or `UNKNOWN`. -/
theorem post_thread_publishes_on_in_progress :
    (post_thread (fun _ => "IN_PROGRESS") (Except.ok "99")).lastStatus =
      "IN_PROGRESS" ∧
    Event.publishCall ∈
      (post_thread (fun _ => "IN_PROGRESS") (Except.ok "99")).events := by
  decide

/-- C2 (amended): publish is never called on a container whose last observed
status is `ERROR` or `EXPIRED`; any other last observed status — including
`IN_PROGRESS` after timeout and `UNKNOWN` — falls through to publish. -/
theorem post_thread_publish_not_on_failed {α : Type} (trace : Nat → String)
    (pub : Except String α)
    (h : Event.publishCall ∈ (post_thread trace pub).events) :
    (post_thread trace pub).lastStatus ≠ "ERROR" ∧
    (post_thread trace pub).lastStatus ≠ "EXPIRED" := by
  by_cases hc : (pollLoopAux trace 13 (trace 0) 1 0 [Event.poll (trace 0)]).1 = "ERROR" ∨
      (pollLoopAux trace 13 (trace 0) 1 0 [Event.poll (trace 0)]).1 = "EXPIRED"
  · exfalso
    have hmem : Event.publishCall ∈
        (pollLoopAux trace 13 (trace 0) 1 0 [Event.poll (trace 0)]).2.2 := by
      simpa [post_thread, if_pos hc] using h
    rcases pollLoopAux_events trace 13 (trace 0) 1 0 [Event.poll (trace 0)]
      Event.publishCall hmem with hin | hip
    · simp at hin
    · simp [Event.isPoll] at hip
  · have hc2 := hc
    push_neg at hc2
    simp only [post_thread, if_neg hc]
    exact hc2

/-- Witness for the amended C2 at a trace that is `FINISHED` at once. -/
theorem post_thread_publish_not_on_failed_witness :
    (post_thread (fun _ => "FINISHED") (Except.ok "7")).lastStatus ≠ "ERROR" ∧
    (post_thread (fun _ => "FINISHED") (Except.ok "7")).lastStatus ≠ "EXPIRED" :=
  post_thread_publish_not_on_failed (fun _ => "FINISHED") (Except.ok "7") (by decide)

/-- C3: if the first status poll returns `ERROR` or `EXPIRED`, `post_thread`
raises `Threads container not publishable: status=<status>` (carrying the
observed status) and its event list is the single poll — `publish_thread` is
never called. -/
theorem post_thread_first_poll_failed {α : Type} (trace : Nat → String)
    (pub : Except String α) (h : trace 0 = "ERROR" ∨ trace 0 = "EXPIRED") :
    (post_thread trace pub).result =
      .error ("Threads container not publishable: status=" ++ trace 0) ∧
    (post_thread trace pub).events = [Event.poll (trace 0)] := by
  have hne : ¬(trace 0 = "IN_PROGRESS" ∧ (0 : Nat) < 60) := by
    rcases h with h | h <;> rw [h] <;> simp
  have hloop := pollLoopAux_exit trace 13 (trace 0) 1 0 [Event.poll (trace 0)] hne
  simp only [post_thread, hloop]
  rw [if_pos h]
  exact ⟨rfl, rfl⟩

/-- Witness for C3 at a trace whose first poll is `ERROR`. -/
theorem post_thread_first_poll_failed_witness :
    (post_thread (fun _ => "ERROR") (Except.ok "7")).result =
      .error ("Threads container not publishable: status=" ++ (fun _ : Nat => "ERROR") 0) ∧
    (post_thread (fun _ => "ERROR") (Except.ok "7")).events =
      [Event.poll ((fun _ : Nat => "ERROR") 0)] :=
  post_thread_first_poll_failed (fun _ => "ERROR") (Except.ok "7") (Or.inl rfl)

/-- C4: on a trace that stays `IN_PROGRESS` forever, the poll loop still
terminates: the accumulated wait reaches exactly the 60-unit ceiling (in
particular within one 5-unit interval past it), after exactly 13 polls
(the initial one plus 12 loop iterations). -/
theorem post_thread_timeout_terminates {α : Type} (trace : Nat → String)
    (pub : Except String α) (h : ∀ i, trace i = "IN_PROGRESS") :
    (post_thread trace pub).waitSecs = 60 ∧
    (post_thread trace pub).waitSecs ≤ 60 + 5 ∧
    ((post_thread trace pub).events.filter Event.isPoll).length = 13 := by
  have hconst := pollLoopAux_const trace h 12 1 [Event.poll "IN_PROGRESS"] (by omega)
  norm_num at hconst
  have hrun : post_thread trace pub =
      { events := ([Event.poll "IN_PROGRESS"] ++
            List.replicate 12 (Event.poll "IN_PROGRESS")) ++ [Event.publishCall],
        lastStatus := "IN_PROGRESS", waitSecs := 60, result := pub } := by
    simp only [post_thread, h 0, hconst]
    simp
  rw [hrun]
  refine ⟨rfl, ?_, ?_⟩
  · show (60 : Nat) ≤ 60 + 5
    decide
  · show ((([Event.poll "IN_PROGRESS"] ++
        List.replicate 12 (Event.poll "IN_PROGRESS")) ++
        [Event.publishCall]).filter Event.isPoll).length = 13
    decide

/-- Witness for C4 at the constant `IN_PROGRESS` trace. -/
theorem post_thread_timeout_terminates_witness :
    (post_thread (fun _ => "IN_PROGRESS") (Except.ok "7")).waitSecs = 60 ∧
    (post_thread (fun _ => "IN_PROGRESS") (Except.ok "7")).waitSecs ≤ 60 + 5 ∧
    ((post_thread (fun _ => "IN_PROGRESS") (Except.ok "7")).events.filter
        Event.isPoll).length = 13 :=
  post_thread_timeout_terminates (fun _ => "IN_PROGRESS") (Except.ok "7")
    (fun _ => rfl)

/-- C5 counterexample: a response whose `status` field holds the unrecognized
value `"BOGUS"` is returned verbatim by `get_container_status`, not mapped to
`UNKNOWN`. -/
theorem get_container_status_unrecognized_not_unknown :
    get_container_status [("status", "BOGUS")] = "BOGUS" ∧
    "BOGUS" ∉ knownStatuses ∧
    get_container_status [("status", "BOGUS")] ≠ "UNKNOWN" := by
  decide

/-- C5 (amended): `get_container_status` returns `UNKNOWN` only when the
response's `status` field is absent; a present value — recognized or not —
is returned verbatim. -/
theorem get_container_status_spec :
    (∀ resp : List (String × String), dictGet resp "status" = none →
      get_container_status resp = "UNKNOWN") ∧
    (∀ (resp : List (String × String)) (v : String),
      dictGet resp "status" = some v → get_container_status resp = v) := by
  constructor
  · intro resp h
    simp [get_container_status, h]
  · intro resp v h
    simp [get_container_status, h]

/-- Witness for the amended C5: an empty response and an unrecognized
status value. -/
theorem get_container_status_spec_witness :
    get_container_status [] = "UNKNOWN" ∧
    get_container_status [("status", "BOGUS")] = "BOGUS" :=
  ⟨get_container_status_spec.1 [] (by decide),
   get_container_status_spec.2 [("status", "BOGUS")] "BOGUS" (by decide)⟩

/-- C6: with auto-refresh enabled, if the identity probe first fails with the
401-plus-expiry signature and the re-run probe succeeds, the constructor's
token-validation path calls `refresh_access_token` exactly once, runs the
probe exactly once more (two probe calls in total), and returns the probe's
success result. -/
theorem client_init_refresh_once (e uid : String)
    (h : isExpiredAuthError e = true) :
    client_init true (.error e) (.ok ()) (.ok uid) =
      ⟨.ok uid, 1, 2⟩ := by
  simp [client_init, h]

/-- Witness for C6 at a concrete 401-expired error message. -/
theorem client_init_refresh_once_witness :
    client_init true (.error "HTTPError 401 for /me: token has expired")
        (.ok ()) (.ok "user1") = ⟨.ok "user1", 1, 2⟩ :=
  client_init_refresh_once "HTTPError 401 for /me: token has expired" "user1"
    (by decide)

/-- C7: with auto-refresh disabled, a probe failure carrying the
401-plus-expiry signature raises the manual-refresh (credential-expired)
error without calling `refresh_access_token`; and a probe failure without
the signature is propagated unchanged — never triggering a refresh —
whatever the auto-refresh setting. -/
theorem client_init_no_refresh (e e2 : String) (b : Bool)
    (refresh : Except String Unit) (probe2 : Except String String)
    (hsig : isExpiredAuthError e = true)
    (hnosig : isExpiredAuthError e2 = false) :
    client_init false (.error e) refresh probe2 =
      ⟨.raisedExpired ("Access token expired. Please refresh manually: " ++ e), 0, 1⟩ ∧
    client_init b (.error e2) refresh probe2 = ⟨.raised e2, 0, 1⟩ := by
  constructor
  · simp [client_init, hsig]
  · simp [client_init, hnosig]

/-- Witness for C7 at a 401-expired message and a plain 500 message. -/
theorem client_init_no_refresh_witness :
    client_init false (.error "HTTPError 401 for /me: token has expired")
        (.ok ()) (.ok "user1") =
      ⟨.raisedExpired ("Access token expired. Please refresh manually: " ++
          "HTTPError 401 for /me: token has expired"), 0, 1⟩ ∧
    client_init true (.error "HTTPError 500 for /me: server exploded")
        (.ok ()) (.ok "user1") =
      ⟨.raised "HTTPError 500 for /me: server exploded", 0, 1⟩ :=
  client_init_no_refresh "HTTPError 401 for /me: token has expired"
    "HTTPError 500 for /me: server exploded" true (.ok ()) (.ok "user1")
    (by decide) (by decide)

/-- C8: when the poll loop exits with the status still `IN_PROGRESS` (the
60-unit wait ceiling was reached), `post_thread` falls through and calls
`publish_thread` anyway, returning its result rather than a timeout
error. -/
theorem post_thread_timeout_falls_through {α : Type} (trace : Nat → String)
    (pub : Except String α)
    (h : (post_thread trace pub).lastStatus = "IN_PROGRESS") :
    (post_thread trace pub).result = pub ∧
    Event.publishCall ∈ (post_thread trace pub).events := by
  by_cases hc : (pollLoopAux trace 13 (trace 0) 1 0 [Event.poll (trace 0)]).1 = "ERROR" ∨
      (pollLoopAux trace 13 (trace 0) 1 0 [Event.poll (trace 0)]).1 = "EXPIRED"
  · exfalso
    have hlast : (post_thread trace pub).lastStatus =
        (pollLoopAux trace 13 (trace 0) 1 0 [Event.poll (trace 0)]).1 := by
      simp [post_thread, if_pos hc]
    rw [hlast] at h
    rcases hc with hc | hc <;> rw [hc] at h <;> simp at h
  · constructor
    · simp [post_thread, if_neg hc]
    · simp [post_thread, if_neg hc]

/-- Witness for C8 at the constant `IN_PROGRESS` trace. -/
theorem post_thread_timeout_falls_through_witness :
    (post_thread (fun _ => "IN_PROGRESS") (Except.ok "55")).result =
      Except.ok "55" ∧
    Event.publishCall ∈
      (post_thread (fun _ => "IN_PROGRESS") (Except.ok "55")).events :=
  post_thread_timeout_falls_through (fun _ => "IN_PROGRESS") (Except.ok "55")
    (by decide)

/-- C9: the payload `create_thread` builds carries the given text; with an
image URL it has `media_type = IMAGE` and the `image_url` field set to the
given URL; without one it has `media_type = TEXT` and no `image_url`
field. -/
theorem create_thread_payload_spec (text u : String) :
    dictGet (create_thread_payload text (some u)) "media_type" = some "IMAGE" ∧
    dictGet (create_thread_payload text (some u)) "image_url" = some u ∧
    dictGet (create_thread_payload text (some u)) "text" = some text ∧
    dictGet (create_thread_payload text none) "media_type" = some "TEXT" ∧
    dictGet (create_thread_payload text none) "image_url" = none ∧
    dictGet (create_thread_payload text none) "text" = some text := by
  refine ⟨?_, ?_, ?_, ?_, ?_, ?_⟩ <;>
    simp [create_thread_payload, dictSet, dictGet]

/-- C10: `refresh_access_token` replaces the held credential only after a
successful exchange: on any failure the credential is unchanged, and on
success it equals the `access_token` field of the response body. -/
theorem refresh_access_token_atomic (tok : String) (resp : RefreshResponse) :
    (∀ msg, (refresh_access_token tok resp).2 = .error msg →
      (refresh_access_token tok resp).1 = tok) ∧
    (∀ body, (refresh_access_token tok resp).2 = .ok body →
      dictGet body "access_token" = some (refresh_access_token tok resp).1) := by
  constructor
  · intro msg hmsg
    cases resp with
    | transportError m => rfl
    | httpError c b => rfl
    | ok body =>
      cases hb : dictGet body "access_token" with
      | none => simp [refresh_access_token, hb]
      | some t =>
        simp [refresh_access_token, hb] at hmsg
  · intro body hbody
    cases resp with
    | transportError m => simp [refresh_access_token] at hbody
    | httpError c b => simp [refresh_access_token] at hbody
    | ok body0 =>
      cases hb : dictGet body0 "access_token" with
      | none => simp [refresh_access_token, hb] at hbody
      | some t =>
        simp only [refresh_access_token, hb, Except.ok.injEq] at hbody ⊢
        rw [← hbody]
        exact hb

/-- Witness for C10: a failing exchange keeps the old token; a successful
one installs the token from the body. -/
theorem refresh_access_token_atomic_witness :
    (refresh_access_token "old" (.httpError 400 "bad")).1 = "old" ∧
    dictGet [("access_token", "new")] "access_token" =
      some (refresh_access_token "old" (.ok [("access_token", "new")])).1 :=
  ⟨(refresh_access_token_atomic "old" (.httpError 400 "bad")).1
     ("Failed to refresh token - HTTPError " ++ toString 400 ++ ": " ++ "bad") rfl,
   (refresh_access_token_atomic "old" (.ok [("access_token", "new")])).2
     [("access_token", "new")] rfl⟩

end ThreadsClient
